import Mathlib

/-!
Verification of the authentication & authorization core of the bid_system_app
backend, as a shallow embedding in Lean 4.

The embedding follows the Python source:
  * `backend/app/core/security.py`       — token codec and password hashing
  * `backend/app/core/exceptions.py`     — the application exception classes
  * `backend/app/api/deps.py`            — identity resolution (HTTP and WebSocket)
  * `backend/app/api/routes/v1/auth.py`  — the refresh route
  * `backend/app/api/exception_handlers.py` — exception-to-HTTP-response translation
  * `backend/app/services/user.py`       — user lookup and authentication
  * `backend/app/db/models/user.py`      — the user model and role check

Time is modelled as an integer unix timestamp.  The third-party libraries the
code calls into (PyJWT, pyca/bcrypt) are modelled by their documented
behaviour: a JWT is either a payload signed with some secret or an arbitrary
malformed string, and a bcrypt digest is either a well-formed hash of some
plaintext or an arbitrary unparseable string.
-/

namespace BidSystem

/-! ## Token codec (`app/core/security.py`) -/

/-- A decoded JWT payload.  The issuers in `security.py` always set all three
claims, but `payload.get("sub")` / `payload.get("type")` may be absent in
general, so the fields are optional as in `TokenPayload` of
`app/schemas/token.py`. -/
structure JwtPayload where
  sub : Option String
  exp : Int
  type : Option String
deriving DecidableEq, Repr

/-- A JWT token string, modelled structurally: `jwt.encode` produces a compact
serialization of a payload signed with a secret, and every other string is
malformed.  A compact JWS serialization is never the empty string, so the empty
string is one of the `malformed` values. -/
inductive JwtToken where
  | signed (payload : JwtPayload) (secret : String)
  | malformed (raw : String)
deriving DecidableEq, Repr

/-- Modelled from the spec: the configuration values `SECRET_KEY`,
`ACCESS_TOKEN_EXPIRE_MINUTES` and `REFRESH_TOKEN_EXPIRE_MINUTES` live in
`app/core/config.py`, which is not among the provided sources; the spec only
says they are read once at process start and that the refresh TTL is longer
than the access TTL.  The secret is an opaque server-held string. -/
def SECRET_KEY : String := "server-held-secret"

/-- Modelled from the spec: default access-token lifetime, in minutes. -/
def ACCESS_TOKEN_EXPIRE_MINUTES : Int := 30

/-- Modelled from the spec: default refresh-token lifetime, in minutes
(longer than the access-token lifetime). -/
def REFRESH_TOKEN_EXPIRE_MINUTES : Int := 10080

/-- `jwt.encode(payload, secret, algorithm)`. -/
def jwtEncode (payload : JwtPayload) (secret : String) : JwtToken :=
  .signed payload secret

/-- `jwt.decode(token, secret, algorithms)`: checks the signature and the
`exp` claim (PyJWT treats a token as expired, with zero leeway, exactly when
`exp <= now`), returning `none` in place of raising `PyJWTError`. -/
def jwtDecode (token : JwtToken) (secret : String) (now : Int) : Option JwtPayload :=
  match token with
  | .malformed _ => none
  | .signed p s => if s = secret ∧ now < p.exp then some p else none

/-- `create_access_token(subject, expires_delta)` from `security.py`.
`now` is the current time and `ttl` the expiry delta in seconds (the caller
supplies the configuration default when `expires_delta` is omitted). -/
def create_access_token (subject : String) (now ttl : Int) : JwtToken :=
  jwtEncode { sub := some subject, exp := now + ttl, type := some "access" } SECRET_KEY

/-- `create_refresh_token(subject, expires_delta)` from `security.py`. -/
def create_refresh_token (subject : String) (now ttl : Int) : JwtToken :=
  jwtEncode { sub := some subject, exp := now + ttl, type := some "refresh" } SECRET_KEY

/-- `verify_token(token)` from `security.py`: decode, returning `None` on any
`PyJWTError` (bad signature, malformed structure, expired). -/
def verify_token (token : JwtToken) (now : Int) : Option JwtPayload :=
  jwtDecode token SECRET_KEY now

/-! ## Password hashing (`app/core/security.py`, pyca/bcrypt) -/

/-- A bcrypt digest string: either a well-formed `$2b$...` hash, remembering
the plaintext it was produced from and the salt drawn by `bcrypt.gensalt()`
(an idealization of a collision-free hash), or any string that does not parse
as a bcrypt hash — the empty string among them. -/
inductive BcryptDigest where
  | hashed (plaintext : String) (salt : Nat)
  | malformed (raw : String)
deriving DecidableEq, Repr

/-- The exceptions that can escape the modelled operations: the application's
own `AppException` subclasses (`app/core/exceptions.py`), or `ValueError`
raised by the bcrypt library.  The `details` dict attached to some
`AppException`s is omitted: it never influences status codes or headers. -/
inductive AppError where
  | notFoundError (message : String)
  | alreadyExistsError (message : String)
  | validationError (message : String)
  | authenticationError (message : String)
  | authorizationError (message : String)
  | rateLimitError (message : String)
  | badRequestError (message : String)
  | externalServiceError (message : String)
  | databaseError (message : String)
  | internalError (message : String)
deriving DecidableEq, Repr

/-- `status_code` class attribute of each `AppException` subclass. -/
def AppError.status_code : AppError → Nat
  | .notFoundError _ => 404
  | .alreadyExistsError _ => 409
  | .validationError _ => 422
  | .authenticationError _ => 401
  | .authorizationError _ => 403
  | .rateLimitError _ => 429
  | .badRequestError _ => 400
  | .externalServiceError _ => 503
  | .databaseError _ => 500
  | .internalError _ => 500

/-- `code` class attribute of each `AppException` subclass. -/
def AppError.code : AppError → String
  | .notFoundError _ => "NOT_FOUND"
  | .alreadyExistsError _ => "ALREADY_EXISTS"
  | .validationError _ => "VALIDATION_ERROR"
  | .authenticationError _ => "AUTHENTICATION_ERROR"
  | .authorizationError _ => "AUTHORIZATION_ERROR"
  | .rateLimitError _ => "RATE_LIMIT_EXCEEDED"
  | .badRequestError _ => "BAD_REQUEST"
  | .externalServiceError _ => "EXTERNAL_SERVICE_ERROR"
  | .databaseError _ => "DATABASE_ERROR"
  | .internalError _ => "INTERNAL_ERROR"

/-- The `message` carried by the exception instance. -/
def AppError.message : AppError → String
  | .notFoundError m => m
  | .alreadyExistsError m => m
  | .validationError m => m
  | .authenticationError m => m
  | .authorizationError m => m
  | .rateLimitError m => m
  | .badRequestError m => m
  | .externalServiceError m => m
  | .databaseError m => m
  | .internalError m => m

/-- An exception escaping a modelled call: an `AppException` or a library
`ValueError`. -/
inductive Exn where
  | app (e : AppError)
  | valueError (message : String)
deriving DecidableEq, Repr

/-- `bcrypt.checkpw(password, hashed_password)` (pyca/bcrypt): the digest is
parsed first; a string that does not parse as a bcrypt hash — the empty
string included — raises `ValueError("Invalid salt")`.  On a well-formed
digest it recomputes the hash and compares in constant time. -/
def bcrypt_checkpw (password : String) (digest : BcryptDigest) : Except Exn Bool :=
  match digest with
  | .hashed p _ => .ok (password == p)
  | .malformed _ => .error (.valueError "Invalid salt")

/-- `verify_password(plain_password, hashed_password)` from `security.py`:
delegates directly to `bcrypt.checkpw`. -/
def verify_password (plain_password : String) (hashed_password : BcryptDigest) :
    Except Exn Bool :=
  bcrypt_checkpw plain_password hashed_password

/-- `get_password_hash(password)` from `security.py`; `salt` stands for the
randomness drawn by `bcrypt.gensalt()`. -/
def get_password_hash (password : String) (salt : Nat) : BcryptDigest :=
  .hashed password salt

/-! ## User model (`app/db/models/user.py`) -/

/-- `UserRole` enumeration. -/
inductive UserRole where
  | admin
  | user
deriving DecidableEq, Repr

/-- The `.value` of each enum member. -/
def UserRole.value : UserRole → String
  | .admin => "admin"
  | .user => "user"

/-- The `User` model, restricted to the attributes the authentication core
reads.  `id` is the string form of the UUID primary key.  `role` is stored as
a plain string column.  `hashed_password` is a nullable column in the schema,
but every write path goes through `get_password_hash`, so it is modelled as a
digest that is always present. -/
structure User where
  id : String
  email : String
  hashed_password : BcryptDigest
  is_active : Bool
  is_superuser : Bool
  role : String
deriving DecidableEq, Repr

/-- `User.has_role(required_role)`: admin passes everything, otherwise the
stored role string must equal the required role's value. -/
def User.has_role (u : User) (required_role : UserRole) : Bool :=
  if u.role == UserRole.admin.value then true
  else u.role == required_role.value

/-! ## Repository and user service (`app/repositories/user.py`,
`app/services/user.py`) -/

/-- The user table, modelled as a list of rows; `user_repo.get_by_id`. -/
def user_repo.get_by_id (db : List User) (user_id : String) : Option User :=
  db.find? (fun u => u.id == user_id)

/-- `user_repo.get_by_email`. -/
def user_repo.get_by_email (db : List User) (email : String) : Option User :=
  db.find? (fun u => u.email == email)

/-- `UserService.get_by_id`: raises `NotFoundError` when the row is absent. -/
def UserService.get_by_id (db : List User) (user_id : String) : Except Exn User :=
  match user_repo.get_by_id db user_id with
  | none => .error (.app (.notFoundError "User not found"))
  | some u => .ok u

/-- `UserService.authenticate(email, password)`: `if not user or not
verify_password(...)` raises invalid-credentials (the password check is
short-circuited when the user is absent), then the active flag is checked. -/
def UserService.authenticate (db : List User) (email password : String) :
    Except Exn User :=
  match user_repo.get_by_email db email with
  | none => .error (.app (.authenticationError "Invalid email or password"))
  | some user =>
    match verify_password password user.hashed_password with
    | .error e => .error e
    | .ok false => .error (.app (.authenticationError "Invalid email or password"))
    | .ok true =>
      if user.is_active = false then
        .error (.app (.authenticationError "User account is disabled"))
      else .ok user

/-! ## HTTP identity resolution (`app/api/deps.py`) -/

/-- `get_current_user(token, user_service)` from `deps.py`: the bearer token
(already extracted by `OAuth2PasswordBearer`) is verified, required to be of
type `"access"`, required to carry a `sub`, then the user is looked up —
`UserService.get_by_id`'s `NotFoundError` propagates uncaught — and the active
flag is checked.  `UUID(user_id)` is modelled as the identity on the opaque id
string (server-issued subjects are always `str(user.id)`). -/
def get_current_user (db : List User) (token : JwtToken) (now : Int) :
    Except Exn User :=
  match verify_token token now with
  | none => .error (.app (.authenticationError "Invalid or expired token"))
  | some payload =>
    if payload.type ≠ some "access" then
      .error (.app (.authenticationError "Invalid token type"))
    else
      match payload.sub with
      | none => .error (.app (.authenticationError "Invalid token payload"))
      | some user_id =>
        match UserService.get_by_id db user_id with
        | .error e => .error e
        | .ok user =>
          if user.is_active = false then
            .error (.app (.authenticationError "User account is disabled"))
          else .ok user

/-- `RoleChecker.__call__(user)` from `deps.py`, applied to an already
resolved user: raises `AuthorizationError` unless `user.has_role` passes. -/
def RoleChecker.call (required_role : UserRole) (user : User) : Except Exn User :=
  if user.has_role required_role = false then
    .error (.app (.authorizationError
      ("Role \x27" ++ required_role.value ++ "\x27 required for this action")))
  else .ok user

/-! ## Refresh route (`app/api/routes/v1/auth.py`) -/

/-- The `Token` response schema (`app/schemas/token.py`). -/
structure Token where
  access_token : JwtToken
  refresh_token : JwtToken
  token_type : String := "bearer"
deriving DecidableEq, Repr

/-- `POST /auth/refresh` from `auth.py`: verify the supplied refresh token,
require type `"refresh"` and a `sub`, look the user up (again
`NotFoundError` from `UserService.get_by_id` propagates uncaught), check the
active flag, and issue a brand-new access/refresh pair with the configured
default TTLs (in seconds). -/
def refresh_token_route (db : List User) (body_refresh_token : JwtToken)
    (now : Int) : Except Exn Token :=
  match verify_token body_refresh_token now with
  | none => .error (.app (.authenticationError "Invalid or expired refresh token"))
  | some payload =>
    if payload.type ≠ some "refresh" then
      .error (.app (.authenticationError "Invalid token type"))
    else
      match payload.sub with
      | none => .error (.app (.authenticationError "Invalid token payload"))
      | some user_id =>
        match UserService.get_by_id db user_id with
        | .error e => .error e
        | .ok user =>
          if user.is_active = false then
            .error (.app (.authenticationError "User account is disabled"))
          else
            .ok { access_token :=
                    create_access_token user.id now (ACCESS_TOKEN_EXPIRE_MINUTES * 60)
                , refresh_token :=
                    create_refresh_token user.id now (REFRESH_TOKEN_EXPIRE_MINUTES * 60) }

/-! ## Exception handler (`app/api/exception_handlers.py`) -/

/-- The observable part of the `JSONResponse` built by the handler. -/
structure HttpResponse where
  status_code : Nat
  headers : List (String × String)
  error_code : String
  error_message : String
deriving DecidableEq, Repr

/-- `app_exception_handler(request, exc)`: status comes from the exception,
and the `WWW-Authenticate: Bearer` header is attached exactly when the status
is 401. -/
def app_exception_handler (exc : AppError) : HttpResponse :=
  { status_code := exc.status_code
  , headers := if exc.status_code = 401 then [("WWW-Authenticate", "Bearer")] else []
  , error_code := exc.code
  , error_message := exc.message }

/-! ## WebSocket identity resolution (`app/api/deps.py`) -/

/-- Python truthiness of a token string: only the empty string is falsy, and
a compact JWS serialization is never empty. -/
def JwtToken.falsy : JwtToken → Bool
  | .malformed s => s == ""
  | .signed _ _ => false

/-- Python `a or b` on two optional strings: `a` when it is present and
truthy, otherwise `b` unchanged. -/
def pyOr (a b : Option JwtToken) : Option JwtToken :=
  match a with
  | some t => if t.falsy then b else some t
  | none => b

/-- Python `not x` on an optional string: true when absent or empty. -/
def pyNot : Option JwtToken → Bool
  | none => true
  | some t => t.falsy

/-- The effects and outcome of a `get_current_user_ws` call: the
`websocket.close(code, reason)` calls it performed, in order, and the value
returned or exception raised. -/
structure WsOutcome where
  closes : List (Nat × String)
  result : Except Exn User
deriving Repr

/-- `get_current_user_ws(websocket, token, access_token)` from `deps.py`:
`auth_token = token or access_token`; an absent or empty token closes the
socket with code 4001 before raising; verification, type and `sub` failures
likewise close with 4001 then raise; the user lookup's `NotFoundError`
propagates out of the `async with` block uncaught (no close); an inactive
account closes with 4001 then raises. -/
def get_current_user_ws (db : List User) (token access_token : Option JwtToken)
    (now : Int) : WsOutcome :=
  let auth_token := pyOr token access_token
  if pyNot auth_token then
    { closes := [(4001, "Missing authentication token")]
    , result := .error (.app (.authenticationError "Missing authentication token")) }
  else
    match auth_token with
    | none =>
      { closes := [(4001, "Missing authentication token")]
      , result := .error (.app (.authenticationError "Missing authentication token")) }
    | some t =>
      match verify_token t now with
      | none =>
        { closes := [(4001, "Invalid or expired token")]
        , result := .error (.app (.authenticationError "Invalid or expired token")) }
      | some payload =>
        if payload.type ≠ some "access" then
          { closes := [(4001, "Invalid token type")]
          , result := .error (.app (.authenticationError "Invalid token type")) }
        else
          match payload.sub with
          | none =>
            { closes := [(4001, "Invalid token payload")]
            , result := .error (.app (.authenticationError "Invalid token payload")) }
          | some user_id =>
            match UserService.get_by_id db user_id with
            | .error e => { closes := [], result := .error e }
            | .ok user =>
              if user.is_active = false then
                { closes := [(4001, "User account is disabled")]
                , result := .error (.app (.authenticationError "User account is disabled")) }
              else { closes := [], result := .ok user }

/-! ## Theorems -/

/-- C4: for every (subject, ttl) pair, verifying `create_access_token subject
now ttl` strictly before the expiry instant `now + ttl` yields a payload with
`type = "access"` and `sub = subject`, and verifying it strictly after the
current time passes `now + ttl` yields `none`. -/
theorem c4_access_token_roundtrip (subject : String) (now ttl t : Int) :
    (t < now + ttl →
      verify_token (create_access_token subject now ttl) t =
        some { sub := some subject, exp := now + ttl, type := some "access" }) ∧
    (now + ttl < t →
      verify_token (create_access_token subject now ttl) t = none) := by
  constructor
  · intro h
    simp [verify_token, create_access_token, jwtEncode, jwtDecode, h]
  · intro h
    simp only [verify_token, create_access_token, jwtEncode, jwtDecode]
    rw [if_neg]
    rintro ⟨-, hlt⟩
    omega

/-- Witness for C4 at subject `"u1"`, issuance time 0, ttl 60, checked at
times 10 and 100. -/
theorem c4_access_token_roundtrip_witness :
    verify_token (create_access_token "u1" 0 60) 10 =
      some { sub := some "u1", exp := 0 + 60, type := some "access" } ∧
    verify_token (create_access_token "u1" 0 60) 100 = none :=
  ⟨(c4_access_token_roundtrip "u1" 0 60 10).1 (by decide),
   (c4_access_token_roundtrip "u1" 0 60 100).2 (by decide)⟩

/-- C8: `verify_token` is total — it returns either a payload or `none`, and
each failure mode (malformed structure, bad signature, expiry passed) yields
the same `none`, which therefore does not distinguish the failure reason. -/
theorem c8_verify_token_never_raises (now : Int) :
    (∀ raw, verify_token (JwtToken.malformed raw) now = none) ∧
    (∀ p s, s ≠ SECRET_KEY → verify_token (JwtToken.signed p s) now = none) ∧
    (∀ p : JwtPayload, p.exp ≤ now →
      verify_token (JwtToken.signed p SECRET_KEY) now = none) ∧
    (∀ t : JwtToken, verify_token t now = none ∨ ∃ p, verify_token t now = some p) := by
  refine ⟨fun _ => rfl, fun p s hs => ?_, fun p hexp => ?_, fun t => ?_⟩
  · simp [verify_token, jwtDecode, hs]
  · simp only [verify_token, jwtDecode]
    rw [if_neg]
    rintro ⟨-, hlt⟩
    omega
  · cases h : verify_token t now with
    | none => exact Or.inl rfl
    | some p => exact Or.inr ⟨p, rfl⟩

/-- Witness for C8: a malformed token, a token signed with the wrong secret,
and an expired token, all checked at time 5, all map to `none`. -/
theorem c8_verify_token_never_raises_witness :
    verify_token (JwtToken.malformed "garbage") 5 = none ∧
    verify_token (JwtToken.signed ⟨some "u1", 100, some "access"⟩ "wrong-secret") 5 = none ∧
    verify_token (JwtToken.signed ⟨some "u1", 5, some "access"⟩ SECRET_KEY) 5 = none :=
  ⟨(c8_verify_token_never_raises 5).1 "garbage",
   (c8_verify_token_never_raises 5).2.1 ⟨some "u1", 100, some "access"⟩ "wrong-secret"
     (by decide),
   (c8_verify_token_never_raises 5).2.2.1 ⟨some "u1", 5, some "access"⟩ (by decide)⟩

/-- C6: authorization of a resolved user against a required role succeeds
when the user's role is `"admin"` (whatever the required role), succeeds when
the user's role equals the required role's value, and otherwise fails with
`AuthorizationError` (the InsufficientRole case). -/
theorem c6_role_checker_two_tier (u : User) (required : UserRole) :
    (u.role = "admin" → RoleChecker.call required u = .ok u) ∧
    (u.role = required.value → RoleChecker.call required u = .ok u) ∧
    (u.role ≠ "admin" → u.role ≠ required.value →
      RoleChecker.call required u =
        .error (.app (.authorizationError
          ("Role \x27" ++ required.value ++ "\x27 required for this action")))) := by
  refine ⟨fun h => ?_, fun h => ?_, fun h1 h2 => ?_⟩
  · have htrue : u.has_role required = true := by
      simp [User.has_role, UserRole.value, h]
    simp [RoleChecker.call, htrue]
  · have htrue : u.has_role required = true := by
      simp [User.has_role, h]
    simp [RoleChecker.call, htrue]
  · have hfalse : u.has_role required = false := by
      simp only [User.has_role, beq_iff_eq]
      rw [show UserRole.admin.value = "admin" from rfl, if_neg h1]
      exact beq_eq_false_iff_ne.mpr h2
    simp [RoleChecker.call, hfalse]

/-- Witness for C6: an admin passes both a USER-required and an
ADMIN-required check, and a plain user fails an ADMIN-required check with
`AuthorizationError`. -/
theorem c6_role_checker_two_tier_witness :
    RoleChecker.call UserRole.user
      ⟨"a1", "admin@example.com", .hashed "pw" 0, true, true, "admin"⟩ =
      .ok ⟨"a1", "admin@example.com", .hashed "pw" 0, true, true, "admin"⟩ ∧
    RoleChecker.call UserRole.admin
      ⟨"a1", "admin@example.com", .hashed "pw" 0, true, true, "admin"⟩ =
      .ok ⟨"a1", "admin@example.com", .hashed "pw" 0, true, true, "admin"⟩ ∧
    RoleChecker.call UserRole.admin
      ⟨"u1", "user@example.com", .hashed "pw" 0, true, false, "user"⟩ =
      .error (.app (.authorizationError
        ("Role \x27" ++ UserRole.admin.value ++ "\x27 required for this action"))) :=
  ⟨(c6_role_checker_two_tier
      ⟨"a1", "admin@example.com", .hashed "pw" 0, true, true, "admin"⟩
      UserRole.user).1 rfl,
   (c6_role_checker_two_tier
      ⟨"a1", "admin@example.com", .hashed "pw" 0, true, true, "admin"⟩
      UserRole.admin).1 rfl,
   (c6_role_checker_two_tier
      ⟨"u1", "user@example.com", .hashed "pw" 0, true, false, "user"⟩
      UserRole.admin).2.2 (by decide) (by decide)⟩

/-- C7: a response built by `app_exception_handler` carries the
`WWW-Authenticate: Bearer` header exactly when its status code is 401, and an
`AuthorizationError` (InsufficientRole) yields 403 with no headers at all. -/
theorem c7_www_authenticate_iff_401 (e : AppError) (msg : String) :
    (("WWW-Authenticate", "Bearer") ∈ (app_exception_handler e).headers ↔
      (app_exception_handler e).status_code = 401) ∧
    (app_exception_handler (.authorizationError msg)).status_code = 403 ∧
    (app_exception_handler (.authorizationError msg)).headers = [] := by
  refine ⟨?_, rfl, rfl⟩
  cases e <;> simp [app_exception_handler, AppError.status_code]

/-- C5: an unexpired REFRESH token presented to `get_current_user` fails with
the `"Invalid token type"` authentication error (WrongTokenKind), an unexpired
ACCESS token presented to the refresh route fails the same way, and at no time
does either operation accept a token of the other kind. -/
theorem c5_token_kind_never_crossed (subject : String) (now ttl t : Int)
    (db : List User) :
    (t < now + ttl →
      get_current_user db (create_refresh_token subject now ttl) t =
        .error (.app (.authenticationError "Invalid token type")) ∧
      refresh_token_route db (create_access_token subject now ttl) t =
        .error (.app (.authenticationError "Invalid token type"))) ∧
    (∀ u, get_current_user db (create_refresh_token subject now ttl) t ≠ .ok u) ∧
    (∀ pair, refresh_token_route db (create_access_token subject now ttl) t ≠ .ok pair) := by
  by_cases hlt : t < now + ttl
  · have hv1 : verify_token (create_refresh_token subject now ttl) t =
        some ⟨some subject, now + ttl, some "refresh"⟩ := by
      simp [verify_token, create_refresh_token, jwtEncode, jwtDecode, hlt]
    have hv2 : verify_token (create_access_token subject now ttl) t =
        some ⟨some subject, now + ttl, some "access"⟩ := by
      simp [verify_token, create_access_token, jwtEncode, jwtDecode, hlt]
    have hg : get_current_user db (create_refresh_token subject now ttl) t =
        .error (.app (.authenticationError "Invalid token type")) := by
      unfold get_current_user
      rw [hv1]
      rfl
    have hr : refresh_token_route db (create_access_token subject now ttl) t =
        .error (.app (.authenticationError "Invalid token type")) := by
      unfold refresh_token_route
      rw [hv2]
      rfl
    refine ⟨fun _ => ⟨hg, hr⟩, fun u hcon => ?_, fun pair hcon => ?_⟩
    · rw [hg] at hcon
      exact Except.noConfusion hcon
    · rw [hr] at hcon
      exact Except.noConfusion hcon
  · have hv1 : verify_token (create_refresh_token subject now ttl) t = none := by
      simp [verify_token, create_refresh_token, jwtEncode, jwtDecode, hlt]
    have hv2 : verify_token (create_access_token subject now ttl) t = none := by
      simp [verify_token, create_access_token, jwtEncode, jwtDecode, hlt]
    have hg : get_current_user db (create_refresh_token subject now ttl) t =
        .error (.app (.authenticationError "Invalid or expired token")) := by
      unfold get_current_user
      rw [hv1]
    have hr : refresh_token_route db (create_access_token subject now ttl) t =
        .error (.app (.authenticationError "Invalid or expired refresh token")) := by
      unfold refresh_token_route
      rw [hv2]
    refine ⟨fun hcon => absurd hcon hlt, fun u hcon => ?_, fun pair hcon => ?_⟩
    · rw [hg] at hcon
      exact Except.noConfusion hcon
    · rw [hr] at hcon
      exact Except.noConfusion hcon

/-- Witness for C5 at subject `"u1"`, issuance time 0, ttl 60, checked at
time 10 against an empty user table. -/
theorem c5_token_kind_never_crossed_witness :
    get_current_user [] (create_refresh_token "u1" 0 60) 10 =
      .error (.app (.authenticationError "Invalid token type")) ∧
    refresh_token_route [] (create_access_token "u1" 0 60) 10 =
      .error (.app (.authenticationError "Invalid token type")) :=
  ⟨((c5_token_kind_never_crossed "u1" 0 60 10 []).1 (by decide)).1,
   ((c5_token_kind_never_crossed "u1" 0 60 10 []).1 (by decide)).2⟩

/-- C9: in the WebSocket adapter, an empty-string `token` query parameter is
treated exactly like an absent one — with a cookie present the adapter
proceeds with the cookie value, and every combination of absent or empty
query parameter and cookie lands in the missing-token outcome (close 4001,
then `AuthenticationError`). -/
theorem c9_empty_query_token_falls_back (db : List User) (c : JwtToken) (now : Int) :
    get_current_user_ws db (some (JwtToken.malformed "")) (some c) now =
      get_current_user_ws db (some c) none now ∧
    get_current_user_ws db (some (JwtToken.malformed "")) none now =
      get_current_user_ws db none none now ∧
    get_current_user_ws db none (some (JwtToken.malformed "")) now =
      get_current_user_ws db none none now ∧
    get_current_user_ws db (some (JwtToken.malformed ""))
        (some (JwtToken.malformed "")) now =
      get_current_user_ws db none none now ∧
    (get_current_user_ws db none none now).closes =
      [(4001, "Missing authentication token")] ∧
    (get_current_user_ws db none none now).result =
      .error (.app (.authenticationError "Missing authentication token")) := by
  refine ⟨?_, rfl, rfl, rfl, rfl, rfl⟩
  cases c with
  | signed p s => rfl
  | malformed raw =>
    by_cases hr : raw = ""
    · subst hr
      rfl
    · have hb : (raw == "") = false := beq_eq_false_iff_ne.mpr hr
      simp [get_current_user_ws, pyOr, pyNot, JwtToken.falsy, hb]

/-- C10: `UserService.authenticate` checks the password before the active
flag — for a stored user, a non-verifying password raises invalid-credentials
whatever the active flag says, a verifying password with an inactive account
raises account-disabled, and a verifying password with an active account
returns the user. -/
theorem c10_authenticate_password_before_active (db : List User)
    (email password : String) (user : User)
    (hfind : user_repo.get_by_email db email = some user) :
    (verify_password password user.hashed_password = .ok false →
      UserService.authenticate db email password =
        .error (.app (.authenticationError "Invalid email or password"))) ∧
    (verify_password password user.hashed_password = .ok true →
      user.is_active = false →
      UserService.authenticate db email password =
        .error (.app (.authenticationError "User account is disabled"))) ∧
    (verify_password password user.hashed_password = .ok true →
      user.is_active = true →
      UserService.authenticate db email password = .ok user) := by
  refine ⟨fun hv => ?_, fun hv hia => ?_, fun hv hia => ?_⟩
  · simp [UserService.authenticate, hfind, hv]
  · simp [UserService.authenticate, hfind, hv, hia]
  · simp [UserService.authenticate, hfind, hv, hia]

/-- Witness for C10: in a one-row table holding an inactive user, a wrong
password fails with invalid-credentials, not account-disabled — the password
is checked first. -/
theorem c10_authenticate_password_before_active_witness :
    UserService.authenticate
      [⟨"id1", "a@example.com", .hashed "pw" 0, false, false, "user"⟩]
      "a@example.com" "wrong" =
      .error (.app (.authenticationError "Invalid email or password")) :=
  (c10_authenticate_password_before_active
    [⟨"id1", "a@example.com", .hashed "pw" 0, false, false, "user"⟩]
    "a@example.com" "wrong"
    ⟨"id1", "a@example.com", .hashed "pw" 0, false, false, "user"⟩ rfl).1 rfl

/-- C1: evaluation at the failing input — a well-formed, unexpired token of
the correct kind whose subject matches no stored user makes both the refresh
route and `get_current_user` raise `NotFoundError`, which the exception
handler surfaces as HTTP 404, not as the claimed 401 authentication
failure. -/
theorem c1_unknown_subject_yields_404 :
    refresh_token_route []
      (create_refresh_token "11111111-1111-1111-1111-111111111111" 0 3600) 0 =
      .error (.app (.notFoundError "User not found")) ∧
    get_current_user []
      (create_access_token "11111111-1111-1111-1111-111111111111" 0 3600) 0 =
      .error (.app (.notFoundError "User not found")) ∧
    (app_exception_handler (.notFoundError "User not found")).status_code = 404 ∧
    (app_exception_handler (.notFoundError "User not found")).status_code ≠ 401 :=
  ⟨rfl, rfl, rfl, by decide⟩

/-- C2: evaluation at the failing input — on a WebSocket connection carrying
a well-formed, unexpired ACCESS token whose subject matches no stored user,
`get_current_user_ws` performs no `websocket.close` call at all (in
particular none with code 4001) and lets `NotFoundError`, not an
authentication failure, escape. -/
theorem c2_unknown_subject_no_ws_close :
    (get_current_user_ws []
        (some (create_access_token "22222222-2222-2222-2222-222222222222" 0 3600))
        none 0).closes = [] ∧
    (get_current_user_ws []
        (some (create_access_token "22222222-2222-2222-2222-222222222222" 0 3600))
        none 0).result = .error (.app (.notFoundError "User not found")) :=
  ⟨rfl, rfl⟩

/-- C3: counterexample — on the non-empty malformed digest `"notahash"`,
`verify_password` does not return `false`; it propagates the
`ValueError("Invalid salt")` that `bcrypt.checkpw` raises for any digest
that does not parse as a bcrypt hash. -/
theorem c3_malformed_digest_counterexample :
    verify_password "password" (BcryptDigest.malformed "notahash") =
      .error (.valueError "Invalid salt") ∧
    verify_password "password" (BcryptDigest.malformed "notahash") ≠ .ok false ∧
    "notahash" ≠ "" :=
  ⟨rfl, fun h => Except.noConfusion h, by decide⟩

/-- C3 (amended): `verify_password` raises `ValueError` for every malformed
digest — the empty string and non-empty unparseable strings alike — and
returns a Boolean (true exactly when the plaintext matches) only for
well-formed bcrypt digests. -/
theorem c3_verify_password_malformed_raises (p : String) :
    (∀ raw, verify_password p (BcryptDigest.malformed raw) =
      .error (.valueError "Invalid salt")) ∧
    (∀ pw salt, verify_password p (BcryptDigest.hashed pw salt) = .ok (p == pw)) :=
  ⟨fun _ => rfl, fun _ _ => rfl⟩
